import Mathlib

/-
Verification development for the step-gated sales-analysis pipeline
(app.py, data_processing.py, ui_helpers.py, ai_kpi.py).

The tabular data is modelled row-oriented: a DataFrame is a header of
column names together with a list of rows, each row a list of cells.
Pandas scalar values are modelled by the Cell type; a missing value
(NaN / NaT / None) is Cell.null.  Floating-point percentages are
modelled exactly over the rationals.  Streamlit session state is an
explicit PipelineState record, and a raised Python exception is
modelled by the Except.error constructor.
-/

inductive Cell where
  | null : Cell
  | str (s : String) : Cell
  | int (n : ℤ) : Cell
  | bool (b : Bool) : Cell
  | date (y m d : ℕ) : Cell
deriving DecidableEq, Repr

structure DataFrame where
  header : List String
  rows : List (List Cell)
deriving DecidableEq, Repr

/-- Number of rows, len(df); pandas keeps the row index even when every
column has been dropped, which the row-oriented model reflects. -/
def DataFrame.nrows (df : DataFrame) : ℕ := df.rows.length

/-- A well-formed (rectangular) frame: every row has one cell per header
entry.  Frames produced by pd.read_csv are always rectangular. -/
def DataFrame.Wf (df : DataFrame) : Prop :=
  ∀ r ∈ df.rows, r.length = df.header.length

instance (df : DataFrame) : Decidable df.Wf := by
  unfold DataFrame.Wf; infer_instance

/-- Cell of a row at column index i (out-of-range reads never happen on
well-formed frames; they default to null). -/
def cellAt (r : List Cell) (i : ℕ) : Cell := r.getD i Cell.null

/-- Index of a column name in the header (first occurrence). -/
def DataFrame.colIdx (df : DataFrame) (c : String) : ℕ := df.header.indexOf c

/-- df[c].isnull().sum() : number of rows whose cell in column c is null. -/
def nullCount (df : DataFrame) (c : String) : ℕ :=
  (df.rows.filter (fun r => cellAt r (df.colIdx c) == Cell.null)).length

/-- The exact mathematical null percentage of column c,
(count / len(df)) * 100 over the rationals.  This is the quantity the
spec sentences refer to; it appears only in claim statements.  The code
itself computes a binary64 approximation of it, modelled faithfully by
pctF64 below, and the two can disagree at representation boundaries
(e.g. 7 nulls in 100 rows: binary64 yields 7.000000000000001). -/
def missingPct (df : DataFrame) (c : String) : ℚ :=
  ((nullCount df c : ℚ) / (df.nrows : ℚ)) * 100

-- Binary64 model.  The percentages the source computes are IEEE-754
-- double precision: count and len convert exactly (they are below
-- 2^53), the division count/len is correctly rounded to 53 bits with
-- ties to even, and so is the subsequent multiplication by 100.  All
-- values arising here are either 0 or lie well inside the normal
-- range (between 2^-53-ish quotients and 100), so neither subnormals
-- nor overflow/NaN arise except for the empty frame, where count = 0
-- makes the result exactly 0 and the comparison false, matching the
-- NaN > t comparison of the source.  A nonzero double is represented
-- as mantissa / 2 ^ shift with 2 ^ 52 ≤ mantissa < 2 ^ 53.

structure F64 where
  mantissa : ℕ
  shift : ℕ
deriving DecidableEq, Repr

def f64Zero : F64 := ⟨0, 0⟩

/-- Nearest integer to A / B with ties to even (B > 0), the rounding
step of round-to-nearest-even. -/
def roundHalfEven (A B : ℕ) : ℕ :=
  if 2 * (A % B) < B then A / B
  else if B < 2 * (A % B) then A / B + 1
  else if (A / B) % 2 = 0 then A / B else A / B + 1

/-- Smallest sh with 2 ^ 52 * B ≤ A * 2 ^ sh, found by counting up; the
fuel 53 + B always suffices (lemma normShift_spec). -/
def normShiftAux (A B : ℕ) : ℕ → ℕ → ℕ
  | 0, sh => sh
  | fuel + 1, sh => if 2 ^ 52 * B ≤ A * 2 ^ sh then sh else normShiftAux A B fuel (sh + 1)

def normShift (A B : ℕ) : ℕ := normShiftAux A B (53 + B) 0

/-- The binary64 value nearest to A / B (round to nearest, ties to
even), for 0 < A and 0 < B with A / B below 2 ^ 53: the quotient is
scaled into the mantissa range [2 ^ 52, 2 ^ 53), rounded, and
renormalised if rounding carried up to 2 ^ 53.  This is the correctly
rounded result an IEEE-754 division or multiplication returns. -/
def roundQ (A B : ℕ) : F64 :=
  if roundHalfEven (A * 2 ^ normShift A B) B = 2 ^ 53 then
    ⟨2 ^ 52, normShift A B - 1⟩
  else
    ⟨roundHalfEven (A * 2 ^ normShift A B) B, normShift A B⟩

/-- float64 division a / b of two exactly converted naturals (b > 0
whenever a > 0 at every call site). -/
def f64Div (a b : ℕ) : F64 :=
  if a = 0 then f64Zero else roundQ a b

/-- float64 multiplication x * k by an exactly representable natural:
the exact product mantissa * k / 2 ^ shift is re-rounded to 53 bits. -/
def f64MulNat (x : F64) (k : ℕ) : F64 :=
  if x.mantissa = 0 then f64Zero else roundQ (x.mantissa * k) (2 ^ x.shift)

/-- The exact comparison x > t of a double against an exactly
representable natural threshold. -/
def f64GtNat (x : F64) (t : ℕ) : Bool :=
  decide (t * 2 ^ x.shift < x.mantissa)

/-- The value the source stores in missing_percentage[c]:
(df.isnull().sum() / len(df)) * 100 computed in binary64.  For the
empty frame the count is 0 and the model yields exactly 0 (the source
yields NaN there; both compare false against every threshold). -/
def pctF64 (df : DataFrame) (c : String) : F64 :=
  f64MulNat (f64Div (nullCount df c) df.nrows) 100

/-- The source comparison missing_percentage[c] > threshold, in the
binary64 arithmetic the program actually performs. -/
def exceedsThreshold (df : DataFrame) (c : String) (t : ℕ) : Bool :=
  f64GtNat (pctF64 df c) t

/-- df.drop(columns=names) : removes every column whose name is in
names; rows keep the cells of the remaining columns, in order. -/
def dropCols (df : DataFrame) (names : List String) : DataFrame :=
  { header := df.header.filter (fun c => !names.contains c),
    rows := df.rows.map (fun r =>
      ((df.header.zip r).filter (fun p => !names.contains p.1)).map Prod.snd) }

/-- Lookup in a Python dict built from an association list: later
entries overwrite earlier ones, so the last matching key wins. -/
def dictGet (l : List (String × String)) (k : String) : Option String :=
  List.lookup k l.reverse

/-- df.rename(columns=m) : every column whose name is a key of m is
renamed to the associated value; other columns are unchanged. -/
def renameCols (df : DataFrame) (m : List (String × String)) : DataFrame :=
  { df with header := df.header.map (fun c => (dictGet m c).getD c) }

/-- df.dropna(subset=[c]) : keeps the rows whose cell in column c is
not null. -/
def dropna (df : DataFrame) (c : String) : DataFrame :=
  { df with rows := df.rows.filter (fun r => !(cellAt r (df.colIdx c) == Cell.null)) }

/-- Applies f to the cell of column c in every row (a column-wise map
such as pd.to_datetime or Series.map). -/
def mapCol (df : DataFrame) (c : String) (f : Cell → Cell) : DataFrame :=
  { df with rows := df.rows.map (fun r => r.set (df.colIdx c) (f (cellAt r (df.colIdx c)))) }

/-- df[c] = <expression over each row> : overwrites column c if it
exists, otherwise appends it on the right, as pandas column assignment
does. -/
def setColBy (df : DataFrame) (c : String) (f : List Cell → Cell) : DataFrame :=
  if df.header.contains c then
    { df with rows := df.rows.map (fun r => r.set (df.colIdx c) (f r)) }
  else
    { header := df.header ++ [c], rows := df.rows.map (fun r => r ++ [f r]) }

-- Date support for Step 3 (strptime with format m-d-2digit-year and the
-- pandas datetime accessors used to derive columns).

/-- strptime century rule for a two-digit year: 00-68 map to 2000-2068,
69-99 map to 1969-1999. -/
def expandY2 (yy : ℕ) : ℕ := if yy ≤ 68 then 2000 + yy else 1900 + yy

def isLeap (y : ℕ) : Bool := (y % 4 == 0 && y % 100 != 0) || y % 400 == 0

def daysInMonth (y m : ℕ) : ℕ :=
  if m = 2 then (if isLeap y then 29 else 28)
  else if m = 4 ∨ m = 6 ∨ m = 9 ∨ m = 11 then 30
  else 31

/-- Parses a date string in the strptime format %m-%d-%y (one or two
digits for month and day, two digits for the year), validating the
calendar day; returns (year, month, day). -/
def parseMDY (s : String) : Option (ℕ × ℕ × ℕ) :=
  match s.splitOn "-" with
  | [ms, ds, ys] =>
    match ms.toNat?, ds.toNat?, ys.toNat? with
    | some m, some d, some yy =>
      if ms.length ≤ 2 && ds.length ≤ 2 && ys.length == 2 then
        let y := expandY2 yy
        if 1 ≤ m && m ≤ 12 && 1 ≤ d && d ≤ daysInMonth y m then some (y, m, d)
        else none
      else none
    | _, _, _ => none
  | _ => none

/-- Days since 1970-01-01 of a civil date (standard days-from-civil
computation over ℤ; division here truncates toward zero on the
non-negative intermediate values the algorithm produces). -/
def daysFromCivil (y m d : ℕ) : ℤ :=
  let yAdj : ℤ := if m ≤ 2 then (y : ℤ) - 1 else (y : ℤ)
  let era : ℤ := (if 0 ≤ yAdj then yAdj else yAdj - 399) / 400
  let yoe : ℤ := yAdj - era * 400
  let mp : ℤ := ((m : ℤ) + 9) % 12
  let doy : ℤ := (153 * mp + 2) / 5 + (d : ℤ) - 1
  let doe : ℤ := yoe * 365 + yoe / 4 - yoe / 100 + doy
  era * 146097 + doe - 719468

/-- Series.dt.day_name() : English weekday name (1970-01-01 was a
Thursday). -/
def dayName (y m d : ℕ) : String :=
  ["Monday", "Tuesday", "Wednesday", "Thursday", "Friday", "Saturday", "Sunday"].getD
    ((daysFromCivil y m d + 3) % 7).toNat ""

/-- str(Series.dt.to_period(M)) : the year-month label YYYY-MM. -/
def monthPeriodStr (y m : ℕ) : String :=
  toString y ++ "-" ++ (if m < 10 then "0" ++ toString m else toString m)

/-- pd.to_datetime(cell, format=m-d-y, errors=coerce) on one cell:
strings are parsed (unparseable ones coerce to null/NaT), datetime
values pass through, and any other value coerces to null. -/
def parseDateCell : Cell → Cell
  | Cell.str s =>
    match parseMDY s with
    | some (y, m, d) => Cell.date y m d
    | none => Cell.null
  | Cell.date y m d => Cell.date y m d
  | _ => Cell.null

/-- Series.map({True: True, False: False, Yes: True, No: False}) for the
B2B column: booleans and the strings Yes/No are normalised; the integers
1 and 0 hit the True/False keys by Python equality; every other value
maps to null (NaN), as Series.map does for unmatched keys. -/
def b2bCell : Cell → Cell
  | Cell.bool b => Cell.bool b
  | Cell.str s => if s = "Yes" then Cell.bool true
      else if s = "No" then Cell.bool false else Cell.null
  | Cell.int n => if n = 1 then Cell.bool true
      else if n = 0 then Cell.bool false else Cell.null
  | _ => Cell.null

def monthCell : Cell → Cell
  | Cell.date y m _ => Cell.str (monthPeriodStr y m)
  | _ => Cell.null

def yearCell : Cell → Cell
  | Cell.date y _ _ => Cell.int (y : ℤ)
  | _ => Cell.null

def dowCell : Cell → Cell
  | Cell.date y m d => Cell.str (dayName y m d)
  | _ => Cell.null

/-- Derives a new column named c from the Date column (the dt accessor
chains of Step 3): each new cell is computed from the row's Date cell. -/
def addDerived (df : DataFrame) (c : String) (g : Cell → Cell) : DataFrame :=
  setColBy df c (fun r => g (cellAt r (df.colIdx "Date")))

-- Step summaries (the side artifacts each transform returns; the
-- display-only .round(2) and thousands formatting of the source are not
-- modelled, the stored numbers are exact).

structure MissingRow where
  column : String
  count : ℕ
  pct : F64
deriving DecidableEq, Repr

/-- Stable insertion of a row into a list sorted descending by count
(models sort_values(Missing Count, ascending=False)). -/
def insertCountDesc (x : MissingRow) : List MissingRow → List MissingRow
  | [] => [x]
  | y :: ys => if y.count ≥ x.count then y :: insertCountDesc x ys else x :: y :: ys

def sortCountDesc : List MissingRow → List MissingRow
  | [] => []
  | x :: xs => insertCountDesc x (sortCountDesc xs)

inductive Summary where
  | emptyS : Summary
  | inspectS (missing_summary : List MissingRow) (sample_missing_rows : DataFrame)
      (note : String) : Summary
  | dropS (dropped_summary : List (String × F64)) (note : String)
      (rows_before rows_after : ℕ) : Summary
  | convertS (note : String) : Summary
  | dataReady : Summary
deriving DecidableEq, Repr

-- data_processing.py

/-- Step 1, inspect_missing_values: per-column null counts and
percentages (columns with a positive count, sorted descending by
count), a capped sample of the first 100 rows containing any null, and
a note; the frame itself is returned unchanged. -/
def inspect_missing_values (df : DataFrame) : DataFrame × Summary :=
  let entries := df.header.map (fun c => MissingRow.mk c (nullCount df c) (pctF64 df c))
  let missing_summary := sortCountDesc (entries.filter (fun e => e.count != 0))
  let withNull := df.rows.filter (fun r => r.contains Cell.null)
  let sample_missing_rows : DataFrame := ⟨df.header, withNull.take 100⟩
  let note := "Found **" ++ toString missing_summary.length ++
    "** columns with missing data across **" ++ toString withNull.length ++
    "** total rows. The following summary shows the count and percentage of NaN values per column."
  (df, Summary.inspectS missing_summary sample_missing_rows note)

/-- Step 2, drop_missing_columns: drops every column whose null
percentage strictly exceeds the threshold, and reports the dropped
columns with their percentages and the row counts before and after. -/
def drop_missing_columns (df : DataFrame) (threshold : ℕ) : DataFrame × Summary :=
  let rows_before := df.nrows
  let cols_to_drop := df.header.filter (fun c => exceedsThreshold df c threshold)
  let dropped_summary := cols_to_drop.map (fun c => (c, pctF64 df c))
  let df_new := dropCols df cols_to_drop
  let rows_after := df_new.nrows
  let note :=
    if cols_to_drop.isEmpty then
      "No columns exceeded the **" ++ toString threshold ++ "%** missing threshold."
    else
      "Columns with > **" ++ toString threshold ++ "%** missing values were dropped. **" ++
        toString cols_to_drop.length ++ "** columns removed."
  (df_new, Summary.dropS dropped_summary note rows_before rows_after)

/-- Step 3, convert_date_and_derive: renames columns through
reverse_map (the dict comprehension swapping each mapping pair), then,
when a Date column is present, drops the legacy columns New and
PendingS, drops rows with null Amount, parses Date (coercing failures
to null and dropping those rows), normalises B2B, and derives Month,
Year and DayOfWeek; otherwise returns the renamed frame with a
skipped-conversion note. -/
def convert_date_and_derive (df : DataFrame) (mapping : List (String × String)) :
    DataFrame × Summary :=
  let reverse_map := mapping.map (fun p => (p.2, p.1))
  let df1 := renameCols df reverse_map
  if df1.header.contains "Date" then
    let df2 := dropCols df1 ["New", "PendingS"]
    let df3 := if df2.header.contains "Amount" then dropna df2 "Amount" else df2
    let df4 := mapCol df3 "Date" parseDateCell
    let df5 := dropna df4 "Date"
    let df6 := if df5.header.contains "B2B" then mapCol df5 "B2B" b2bCell else df5
    let df7 := addDerived df6 "Month" monthCell
    let df8 := addDerived df7 "Year" yearCell
    let df9 := addDerived df8 "DayOfWeek" dowCell
    (df9, Summary.convertS
      "The Date column was converted to datetime objects. Derived columns (Month, Year, DayOfWeek) added for trend analysis. Critical rows (missing Date/Amount) were dropped.")
  else
    (df1, Summary.convertS
      "Date conversion skipped: Date column not found in DataFrame after mapping.")

-- app.py : session state and the pipeline controller

inductive StepOutput where
  | emptyO : StepOutput
  | runAllOutput (n : ℕ) : StepOutput
  | errorO (e : String) : StepOutput
  | undoO (step : ℕ) : StepOutput
  | loadO : StepOutput
deriving DecidableEq, Repr

/-- The streamlit session state fields the controller reads or writes.
current_step models the non-negative Python int step pointer; the
snapshots and step_summaries dicts are modelled as functions to Option. -/
structure PipelineState where
  current_step : ℕ
  df_raw : DataFrame
  df_current : DataFrame
  snapshots : ℕ → Option DataFrame
  column_mapping : List (String × String)
  data_loaded : Bool
  mapped : Bool
  missing_threshold : ℕ
  step_output : StepOutput
  step_summaries : ℕ → Option Summary
  show_custom_dashboard : Bool

/-- init_state() defaults of app.py. -/
def init_state : PipelineState :=
  { current_step := 0, df_raw := ⟨[], []⟩, df_current := ⟨[], []⟩,
    snapshots := fun _ => none, column_mapping := [], data_loaded := false,
    mapped := false, missing_threshold := 10, step_output := StepOutput.emptyO,
    step_summaries := fun _ => none, show_custom_dashboard := false }

/-- make_snapshot(df, step) of ui_helpers.py: stores a copy of df under
key step (value semantics make the .copy() implicit). -/
def make_snapshot (df : DataFrame) (step : ℕ) (s : PipelineState) : PipelineState :=
  { s with snapshots := Function.update s.snapshots step (some df) }

/-- The dispatched body of run_step's try block: step number and current
frame in, either a transformed frame with its summary, or an error
message embedding a raised Python exception (str(e)). -/
abbrev StepFun := ℕ → DataFrame → Except String (DataFrame × Summary)

/-- The concrete if/elif dispatch of run_step over the data_processing
transforms (steps 4-7 only record a readiness flag, any other step
number leaves the frame untouched with an empty summary).  The pandas
originals can raise at runtime on inputs outside this model, so the
controller below is stated over an arbitrary StepFun and this is the
never-raising family obtained from data_processing.py. -/
def dispatch (threshold : ℕ) (mapping : List (String × String)) : StepFun :=
  fun step_num df =>
    if step_num = 1 then Except.ok (inspect_missing_values df)
    else if step_num = 2 then Except.ok (drop_missing_columns df threshold)
    else if step_num = 3 then Except.ok (convert_date_and_derive df mapping)
    else if step_num = 4 ∨ step_num = 5 ∨ step_num = 6 ∨ step_num = 7 then
      Except.ok (df, Summary.dataReady)
    else Except.ok (df, Summary.emptyS)

/-- run_step(step_num, run_all_flag) of app.py: on success stores the
summary, snapshots the new frame, installs it as the working frame,
advances the step pointer and sets the UI marker; on a raised transform
exception only the error marker is recorded. -/
def run_step (T : StepFun) (step_num : ℕ) (run_all_flag : Bool) (s : PipelineState) :
    PipelineState :=
  match T step_num s.df_current with
  | Except.ok (df, summary) =>
    let s1 := { s with step_summaries := Function.update s.step_summaries step_num (some summary) }
    let s2 := make_snapshot df step_num s1
    { s2 with
      df_current := df, current_step := step_num,
      step_output := if run_all_flag then StepOutput.runAllOutput step_num else StepOutput.emptyO }
  | Except.error e => { s with step_output := StepOutput.errorO e }

/-- run_all_steps() of app.py: requires the mapping to be applied
(otherwise only an error is displayed and nothing changes), resets the
working frame to the raw frame, snapshots it at index 0 and calls
run_step for every step in range(1, 8); the loop has no break, so it
continues past failing steps. -/
def run_all_steps (T : StepFun) (s : PipelineState) : PipelineState :=
  if s.mapped then
    let s1 := { s with df_current := s.df_raw }
    let s2 := make_snapshot s1.df_current 0 s1
    (List.range' 1 7).foldl (fun st k => run_step T k true st) s2
  else s

/-- undo_last_step() of app.py.  prev = current_step - 1 and the guard
prev >= 0 become the guard 1 ≤ current_step over ℕ; the lookup
snapshots[prev] on an absent key raises KeyError, modelled as
Except.error; at the initial state only a warning is shown and the
state is unchanged. -/
def undo_last_step (s : PipelineState) : Except String PipelineState :=
  if 1 ≤ s.current_step then
    let prev := s.current_step - 1
    match s.snapshots prev with
    | some df => Except.ok { s with
        df_current := df, current_step := prev,
        step_output := StepOutput.undoO prev, show_custom_dashboard := false }
    | none => Except.error "KeyError"
  else Except.ok s

/-- The successful branch of the Load Raw Data button (app.py lines
108-118): installs the raw frame as both df_raw and the working frame,
snapshots it at index 0, marks data loaded and mapping pending. -/
def load_raw_success (raw : DataFrame) (s : PipelineState) : PipelineState :=
  { s with
    df_raw := raw, df_current := raw,
    snapshots := Function.update s.snapshots 0 (some raw),
    data_loaded := true, mapped := false, current_step := 0,
    step_output := StepOutput.loadO }

def CRITICAL_COLS : List String := ["Date", "Amount", "Order ID"]

/-- missing = [c for c in CRITICAL_COLS if c not in col_map.values()],
where col_map maps each selected source column to its canonical name. -/
def missingCritical (col_map : List (String × String)) : List String :=
  CRITICAL_COLS.filter (fun c => !(col_map.map Prod.snd).contains c)

/-- The Apply Mapping button (app.py lines 294-303): when every critical
canonical name has a source column assigned the mapping is frozen and
the session leaves mapping-pending; otherwise an error is displayed and
the session state is unchanged. -/
def apply_mapping (col_map : List (String × String)) (s : PipelineState) : PipelineState :=
  if missingCritical col_map = [] then
    { s with column_mapping := col_map, mapped := true }
  else s

-- ai_kpi.py : credential rotation and response retrieval

/-- The AI-related session fields: the rotating credential index and the
cached configured model (modelled by the index of the credential that
configured it). -/
structure AIState where
  api_key_index : ℕ
  gemini_model : Option ℕ
deriving DecidableEq, Repr

/-- get_gemini_model() of ai_kpi.py, with explicit recursion fuel (the
source recursion visits each remaining credential at most once, so
keys.length + 1 units always suffice).  keys models the module-level
API_KEYS list and ok models whether configuring the credential at a
given index succeeds (genai.configure / GenerativeModel, external
collaborators).  A cached model is returned at once.  Otherwise the try
block succeeds only when the index is in range and the credential
works; any failure lands in the except handler, which computes
(index + 1) % len(API_KEYS) — a ZeroDivisionError when the list is
empty, modelled as Except.error — and either reports exhaustion (None)
on wrap-around or clears the cache and retries. -/
def getGeminiModelAux (keys : List String) (ok : ℕ → Bool) :
    ℕ → AIState → Except String (Option ℕ × AIState)
  | 0, _ => Except.error "RecursionError"
  | fuel + 1, s =>
    match s.gemini_model with
    | some m => Except.ok (some m, s)
    | none =>
      let index := s.api_key_index
      if index < keys.length ∧ ok index = true then
        Except.ok (some index, { s with gemini_model := some index })
      else if keys.length = 0 then Except.error "ZeroDivisionError"
      else
        let newIndex := (index + 1) % keys.length
        if newIndex = 0 then Except.ok (none, { s with api_key_index := newIndex })
        else getGeminiModelAux keys ok fuel { api_key_index := newIndex, gemini_model := none }

def get_gemini_model (keys : List String) (ok : ℕ → Bool) (s : AIState) :
    Except String (Option ℕ × AIState) :=
  getGeminiModelAux keys ok (keys.length + 1) s

/-- get_gemini_response(prompt) of ai_kpi.py.  gen models
model.generate_content(prompt).text (some text, or none for a raised
request exception, which the inner try converts to the quota fallback
string).  The call to get_gemini_model sits outside any try block, so
an exception raised there propagates to the caller. -/
def get_gemini_response (keys : List String) (ok : ℕ → Bool)
    (gen : String → Option String) (prompt : String) (s : AIState) :
    Except String (String × AIState) :=
  match get_gemini_model keys ok s with
  | Except.error e => Except.error e
  | Except.ok (none, s') =>
    Except.ok ("Error: Could not configure AI model. All API keys failed.", s')
  | Except.ok (some _, s') =>
    match gen prompt with
    | some t => Except.ok (t, s')
    | none =>
      Except.ok ("Error: AI request failed (Quota or API issue). Please wait or check keys.", s')

-- Derived execution notions used by the controller claims.

/-- The frame obtained by applying the transforms of steps 1..k in
order to raw, none as soon as one of them raises. -/
def chainDF (T : StepFun) (raw : DataFrame) : ℕ → Option DataFrame
  | 0 => some raw
  | k + 1 =>
    match chainDF T raw k with
    | some d =>
      match T (k + 1) d with
      | Except.ok p => some p.1
      | Except.error _ => none
    | none => none

/-- Manually pressing the step buttons run_step(1), ..., run_step(k) in
order (run_all uses the same fold with run_all_flag true). -/
def run_steps_upto (T : StepFun) (flag : Bool) (k : ℕ) (s : PipelineState) : PipelineState :=
  (List.range' 1 k).foldl (fun st j => run_step T j flag st) s

-- Concrete instances used by the witnesses and counterexamples.

/-- A one-column, one-row raw frame without nulls. -/
def raw0 : DataFrame := ⟨["a"], [[Cell.int 1]]⟩

/-- The concrete pipeline with the default threshold 10 and an empty
column mapping. -/
def T0 : StepFun := dispatch 10 []

/-- A freshly loaded session on raw0 with the mapping applied. -/
def s0 : PipelineState := { load_raw_success raw0 init_state with mapped := true }

/-- A transform family whose step 1 raises while every other step
succeeds without touching the frame. -/
def TfailOne : StepFun := fun n df =>
  if n = 1 then Except.error "boom" else Except.ok (df, Summary.dataReady)

/-- A transform family that always raises. -/
def failStep : StepFun := fun _ _ => Except.error "boom"

/-- A raw frame whose critical columns match the canonical names and
whose column b is entirely null. -/
def rawA : DataFrame :=
  ⟨["Date", "Amount", "Order ID", "b"],
   [[Cell.str "04-30-22", Cell.int 5, Cell.str "X1", Cell.null],
    [Cell.str "05-01-22", Cell.int 7, Cell.str "X2", Cell.null]]⟩

/-- The identity column mapping on the three critical columns of rawA. -/
def cmA : List (String × String) :=
  [("Date", "Date"), ("Amount", "Amount"), ("Order ID", "Order ID")]

/-- The concrete pipeline for the rawA session (default threshold 10). -/
def TA : StepFun := dispatch 10 cmA

/-- The rawA session after load, mapping, run_step(1) and run_step(2):
the working frame has lost column b and Snapshot[1] still holds rawA. -/
def c2_s2 : PipelineState :=
  run_step TA 2 false (run_step TA 1 false (apply_mapping cmA (load_raw_success rawA init_state)))

/-- c2_s2 after re-running run_step(2). -/
def c2_s3 : PipelineState := run_step TA 2 false c2_s2

/-- A frame whose single column carries the source (non-canonical) name. -/
def c4_df : DataFrame := ⟨["order_date"], [[Cell.str "04-30-22"]]⟩

/-- A confirmed non-identity mapping assigning source column order_date
to the canonical name Date. -/
def c4_mapping : List (String × String) := [("order_date", "Date")]

/-- A draft mapping that assigns a source to Date but to neither Amount
nor Order ID. -/
def cm0 : List (String × String) := [("d", "Date")]

/-- A 100-row frame whose only column has exactly 7 nulls: its exact
null percentage is exactly 7, but binary64 computes
(7/100)*100 = 7.000000000000001 > 7. -/
def df7 : DataFrame :=
  ⟨["a"], List.replicate 7 [Cell.null] ++ List.replicate 93 [Cell.int 1]⟩

/-- The AI session defaults of init_state: api_key_index 0 and no cached
model. -/
def aiInit : AIState := ⟨0, none⟩

-- Helper lemmas shared by the claim theorems.

lemma nullCount_le_nrows (df : DataFrame) (c : String) : nullCount df c ≤ df.nrows :=
  List.length_filter_le _ _

/-- Rounding to nearest never overshoots an integer bound: if A / B is
at most K then so is its rounding. -/
lemma roundHalfEven_le (A B K : ℕ) (hB : 0 < B) (hle : A ≤ B * K) :
    roundHalfEven A B ≤ K := by
  unfold roundHalfEven
  have hqr : B * (A / B) + A % B = A := Nat.div_add_mod A B
  have hq : A / B ≤ K := by
    calc A / B ≤ (B * K) / B := Nat.div_le_div_right hle
      _ = K := Nat.mul_div_cancel_left K hB
  have hq1 : A % B ≠ 0 → A / B + 1 ≤ K := by
    intro hr
    rcases Nat.lt_or_ge (A / B) K with h | h
    · omega
    · have hKq : K = A / B := le_antisymm h hq
      have : B * (A / B) + A % B ≤ B * K := hqr.symm ▸ hle
      rw [hKq] at this
      omega
  split_ifs with h1 h2 h3
  · exact hq
  · exact hq1 (by omega)
  · exact hq
  · exact hq1 (by omega)

/-- Rounding to nearest is at least the floor of the quotient. -/
lemma roundHalfEven_ge (A B : ℕ) : A / B ≤ roundHalfEven A B := by
  unfold roundHalfEven
  split_ifs <;> omega

lemma normShiftAux_mono (A B : ℕ) :
    ∀ (fuel sh : ℕ), 2 ^ 52 * B ≤ A * 2 ^ (sh + fuel) →
    2 ^ 52 * B ≤ A * 2 ^ normShiftAux A B fuel sh := by
  intro fuel
  induction fuel with
  | zero => intro sh h; simpa [normShiftAux] using h
  | succ fuel ih =>
    intro sh h
    unfold normShiftAux
    split_ifs with hc
    · exact hc
    · exact ih (sh + 1) (by rw [show sh + 1 + fuel = sh + (fuel + 1) from by omega]; exact h)

/-- The chosen scale really brings the quotient into the mantissa
range (from below). -/
lemma normShift_spec (A B : ℕ) (hA : 0 < A) :
    2 ^ 52 * B ≤ A * 2 ^ normShift A B := by
  apply normShiftAux_mono
  have hB : B ≤ 2 ^ (B + 1) := le_of_lt (lt_of_lt_of_le (Nat.lt_two_pow B)
    (Nat.pow_le_pow_right (by norm_num) (by omega)))
  calc 2 ^ 52 * B ≤ 2 ^ 52 * 2 ^ (B + 1) := Nat.mul_le_mul_left _ hB
    _ = 2 ^ (0 + (53 + B)) := by rw [← pow_add]; ring_nf
    _ ≤ A * 2 ^ (0 + (53 + B)) := Nat.le_mul_of_pos_left _ hA

/-- A correctly rounded quotient never exceeds an integer bound on the
exact quotient: A ≤ B * M forces value(roundQ A B) ≤ M. -/
lemma roundQ_le (A B M : ℕ) (hB : 0 < B) (hle : A ≤ B * M) :
    (roundQ A B).mantissa ≤ M * 2 ^ (roundQ A B).shift := by
  unfold roundQ
  have hrle : roundHalfEven (A * 2 ^ normShift A B) B ≤ M * 2 ^ normShift A B := by
    apply roundHalfEven_le _ _ _ hB
    calc A * 2 ^ normShift A B ≤ (B * M) * 2 ^ normShift A B :=
          Nat.mul_le_mul_right _ hle
      _ = B * (M * 2 ^ normShift A B) := by ring
  split_ifs with hcarry
  · show (2 : ℕ) ^ 52 ≤ M * 2 ^ (normShift A B - 1)
    rw [hcarry] at hrle
    cases hsh : normShift A B with
    | zero =>
      rw [hsh] at hrle
      simpa using le_trans (by norm_num : (2 : ℕ) ^ 52 ≤ 2 ^ 53) (by simpa using hrle)
    | succ k =>
      rw [hsh] at hrle
      have : 2 * 2 ^ 52 ≤ M * (2 * 2 ^ k) := by
        calc 2 * 2 ^ 52 = 2 ^ 53 := by norm_num
          _ ≤ M * 2 ^ (k + 1) := hrle
          _ = M * (2 * 2 ^ k) := by rw [pow_succ]; ring_nf
      simpa using Nat.le_of_mul_le_mul_left (by linarith [this] : 2 * 2 ^ 52 ≤ 2 * (M * 2 ^ k)) (by norm_num)
  · exact hrle

/-- A correctly rounded quotient of positive numbers is positive (its
mantissa is at least 2 ^ 52). -/
lemma roundQ_pos (A B : ℕ) (hA : 0 < A) (hB : 0 < B) :
    0 < (roundQ A B).mantissa := by
  unfold roundQ
  split_ifs with hcarry
  · positivity
  · show 0 < roundHalfEven (A * 2 ^ normShift A B) B
    have h1 : 2 ^ 52 ≤ (A * 2 ^ normShift A B) / B :=
      (Nat.le_div_iff_mul_le hB).mpr (by
        calc 2 ^ 52 * B ≤ A * 2 ^ normShift A B := normShift_spec A B hA)
    calc 0 < 2 ^ 52 := by positivity
      _ ≤ (A * 2 ^ normShift A B) / B := h1
      _ ≤ roundHalfEven (A * 2 ^ normShift A B) B := roundHalfEven_ge _ _

/-- The binary64 percentage never exceeds 100 (count ≤ len, 1 and 100
are exactly representable, and rounding never crosses a representable
bound). -/
lemma pctF64_le_100 (df : DataFrame) (c : String) :
    (pctF64 df c).mantissa ≤ 100 * 2 ^ (pctF64 df c).shift := by
  unfold pctF64
  by_cases hc : nullCount df c = 0
  · simp [hc, f64Div, f64MulNat, f64Zero]
  · have hcpos : 0 < nullCount df c := Nat.pos_of_ne_zero hc
    have hnpos : 0 < df.nrows := lt_of_lt_of_le hcpos (nullCount_le_nrows df c)
    rw [f64Div, if_neg hc]
    set q := roundQ (nullCount df c) df.nrows with hq
    have hq1 : q.mantissa ≤ 1 * 2 ^ q.shift :=
      roundQ_le _ _ 1 hnpos (by simpa using nullCount_le_nrows df c)
    by_cases hm : q.mantissa = 0
    · simp [f64MulNat, hm, f64Zero]
    · rw [f64MulNat, if_neg hm]
      apply roundQ_le _ _ 100 (by positivity)
      calc q.mantissa * 100 ≤ (1 * 2 ^ q.shift) * 100 := Nat.mul_le_mul_right _ hq1
        _ = 2 ^ q.shift * 100 := by ring

/-- A column containing any null has a positive binary64 percentage. -/
lemma pctF64_pos (df : DataFrame) (c : String) (hc : 0 < nullCount df c) :
    0 < (pctF64 df c).mantissa := by
  have hnpos : 0 < df.nrows := lt_of_lt_of_le hc (nullCount_le_nrows df c)
  unfold pctF64
  rw [f64Div, if_neg (by omega)]
  have hm : 0 < (roundQ (nullCount df c) df.nrows).mantissa := roundQ_pos _ _ hc hnpos
  rw [f64MulNat, if_neg (by omega)]
  exact roundQ_pos _ _ (by positivity) (by positivity)

/-- A null-free column has binary64 percentage exactly zero. -/
lemma pctF64_zero (df : DataFrame) (c : String) (hc : nullCount df c = 0) :
    pctF64 df c = f64Zero := by
  unfold pctF64
  rw [f64Div, if_pos hc]
  rfl

lemma run_step_ok (T : StepFun) (n : ℕ) (flag : Bool) (s : PipelineState)
    (df : DataFrame) (summary : Summary)
    (h : T n s.df_current = Except.ok (df, summary)) :
    run_step T n flag s =
      { s with
        step_summaries := Function.update s.step_summaries n (some summary),
        snapshots := Function.update s.snapshots n (some df),
        df_current := df, current_step := n,
        step_output := if flag then StepOutput.runAllOutput n else StepOutput.emptyO } := by
  unfold run_step make_snapshot
  rw [h]

lemma run_step_err (T : StepFun) (n : ℕ) (flag : Bool) (s : PipelineState) (e : String)
    (h : T n s.df_current = Except.error e) :
    run_step T n flag s = { s with step_output := StepOutput.errorO e } := by
  unfold run_step
  rw [h]

lemma run_steps_upto_zero (T : StepFun) (flag : Bool) (s : PipelineState) :
    run_steps_upto T flag 0 s = s := rfl

lemma run_steps_upto_succ (T : StepFun) (flag : Bool) (k : ℕ) (s : PipelineState) :
    run_steps_upto T flag (k + 1) s = run_step T (k + 1) flag (run_steps_upto T flag k s) := by
  unfold run_steps_upto
  rw [List.range'_concat, List.foldl_append]
  simp [Nat.add_comm]

/-- Core execution lemma: running steps 1..k in order from a state whose
working frame successfully chains through the transforms installs the
chain value as the working frame, sets the pointer to k, and writes
Snapshot[j] for exactly the executed indices j = 1..k. -/
lemma run_steps_upto_ok (T : StepFun) (flag : Bool) :
    ∀ (k : ℕ) (s : PipelineState) (d : DataFrame),
    chainDF T s.df_current k = some d →
    (run_steps_upto T flag k s).df_current = d ∧
    (run_steps_upto T flag k s).current_step = (if k = 0 then s.current_step else k) ∧
    (∀ j, (run_steps_upto T flag k s).snapshots j =
      if 1 ≤ j ∧ j ≤ k then chainDF T s.df_current j else s.snapshots j) := by
  intro k
  induction k with
  | zero =>
    intro s d hd
    have hds : d = s.df_current := by
      simpa [chainDF] using hd.symm
    subst hds
    refine ⟨rfl, by simp [run_steps_upto_zero], ?_⟩
    intro j
    rw [run_steps_upto_zero, if_neg (by omega : ¬(1 ≤ j ∧ j ≤ 0))]
  | succ k ih =>
    intro s d hd
    obtain ⟨dk, hck⟩ : ∃ dk, chainDF T s.df_current k = some dk := by
      cases hck : chainDF T s.df_current k with
      | none =>
        have : chainDF T s.df_current (k + 1) = none := by
          rw [chainDF, hck]
        rw [this] at hd
        exact absurd hd (by simp)
      | some dk => exact ⟨dk, rfl⟩
    have hd' : (match T (k + 1) dk with
        | Except.ok p => some p.1
        | Except.error _ => none) = some d := by
      rw [chainDF, hck] at hd
      exact hd
    obtain ⟨p, hTk, hdp⟩ : ∃ p, T (k + 1) dk = Except.ok p ∧ d = p.1 := by
      cases hT : T (k + 1) dk with
      | ok p => rw [hT] at hd'; exact ⟨p, rfl, (Option.some.inj hd').symm⟩
      | error e => rw [hT] at hd'; exact absurd hd' (by simp)
    obtain ⟨ihdf, ihcs, ihsnap⟩ := ih s dk hck
    rw [run_steps_upto_succ]
    have hTu : T (k + 1) (run_steps_upto T flag k s).df_current = Except.ok (p.1, p.2) := by
      rw [ihdf]
      simpa using hTk
    rw [run_step_ok T (k + 1) flag _ p.1 p.2 hTu]
    refine ⟨hdp.symm, by simp, ?_⟩
    intro j
    by_cases hj : j = k + 1
    · subst hj
      show Function.update (run_steps_upto T flag k s).snapshots (k + 1) (some p.1) (k + 1) = _
      rw [Function.update_same, if_pos (by omega : 1 ≤ k + 1 ∧ k + 1 ≤ k + 1), hd, hdp]
    · show Function.update (run_steps_upto T flag k s).snapshots (k + 1) (some p.1) j = _
      rw [Function.update_noteq hj, ihsnap j]
      by_cases h1 : 1 ≤ j ∧ j ≤ k
      · rw [if_pos h1, if_pos (by omega : 1 ≤ j ∧ j ≤ k + 1)]
      · rw [if_neg h1, if_neg (by omega : ¬(1 ≤ j ∧ j ≤ k + 1))]

lemma undo_last_step_ok (s : PipelineState) (df : DataFrame)
    (h1 : 1 ≤ s.current_step)
    (h2 : s.snapshots (s.current_step - 1) = some df) :
    undo_last_step s = Except.ok { s with
      df_current := df, current_step := s.current_step - 1,
      step_output := StepOutput.undoO (s.current_step - 1), show_custom_dashboard := false } := by
  unfold undo_last_step
  rw [if_pos h1]
  simp only [h2]

lemma undo_last_step_err (s : PipelineState)
    (h1 : 1 ≤ s.current_step)
    (h2 : s.snapshots (s.current_step - 1) = none) :
    undo_last_step s = Except.error "KeyError" := by
  unfold undo_last_step
  rw [if_pos h1]
  simp only [h2]

-- Claim theorems.

/-- C1: for every mapped raw dataset and fixed step parameters, if no
step fails then run_all() finishes with Step Pointer 7, and Snapshot[7]
equals the Dataset obtained by manually calling run_step(1) through
run_step(7) in order on the same freshly loaded raw input (the shared
value is the chain of the step transforms over the raw frame). -/
theorem C1_run_all_refines_manual (T : StepFun) (s : PipelineState)
    (hm : s.mapped = true)
    (hok : (chainDF T s.df_raw 7).isSome = true) :
    (run_all_steps T s).current_step = 7 ∧
    (run_all_steps T s).snapshots 7 = chainDF T s.df_raw 7 ∧
    chainDF T s.df_raw 7 =
      some ((run_steps_upto T false 7 (load_raw_success s.df_raw init_state)).df_current) := by
  obtain ⟨d, hd⟩ := Option.isSome_iff_exists.mp hok
  have hall : run_all_steps T s =
      run_steps_upto T true 7 (make_snapshot s.df_raw 0 { s with df_current := s.df_raw }) := by
    unfold run_all_steps
    rw [if_pos hm]
    rfl
  have h2 : (make_snapshot s.df_raw 0 { s with df_current := s.df_raw }).df_current = s.df_raw :=
    rfl
  obtain ⟨hdf, hcs, hsnap⟩ :=
    run_steps_upto_ok T true 7 (make_snapshot s.df_raw 0 { s with df_current := s.df_raw }) d
      (by rw [h2]; exact hd)
  have h3 : (load_raw_success s.df_raw init_state).df_current = s.df_raw := rfl
  obtain ⟨hdf3, _, _⟩ :=
    run_steps_upto_ok T false 7 (load_raw_success s.df_raw init_state) d (by rw [h3]; exact hd)
  refine ⟨?_, ?_, ?_⟩
  · rw [hall, hcs]
    simp
  · rw [hall, hsnap 7, if_pos (by omega : 1 ≤ 7 ∧ 7 ≤ 7), h2]
  · rw [hdf3, hd]

/-- C1 witness: the concrete pipeline on the loaded, mapped session s0
reaches Step Pointer 7 via run_all. -/
theorem C1_run_all_refines_manual_witness :
    (run_all_steps T0 s0).current_step = 7 :=
  (C1_run_all_refines_manual T0 s0 rfl (by decide)).1

/-- C2 counterexample: after load, run_step(1) and run_step(2) on the
rawA session, re-running run_step(2) succeeds, but undo then restores
Snapshot[1] (= rawA), which differs from the working Dataset that
existed immediately before the second run_step(2) call, refuting the
claim in its unrestricted form (the pointer does become n - 1 = 1). -/
theorem C2_claim_counterexample :
    (TA 2 c2_s2.df_current).toOption.isSome = true ∧
    (undo_last_step c2_s3).toOption.map PipelineState.current_step = some 1 ∧
    (undo_last_step c2_s3).toOption.map PipelineState.df_current ≠
      some c2_s2.df_current := by
  refine ⟨by decide, by decide, by decide⟩

/-- C2 amended: if run_step(n), n ≥ 1, is called in a state whose
Snapshot[n-1] equals the current working Dataset — as after running
steps 1..n-1 in order without skips or re-runs — then undo()
immediately after the successful run_step(n) restores a Dataset equal
by value to the pre-call Dataset and leaves the Step Pointer at n-1. -/
theorem C2_undo_after_inorder_run_step (T : StepFun) (s : PipelineState) (n : ℕ)
    (p : DataFrame × Summary) (flag : Bool)
    (hn : 1 ≤ n)
    (hsnap : s.snapshots (n - 1) = some s.df_current)
    (hok : T n s.df_current = Except.ok p) :
    (undo_last_step (run_step T n flag s)).toOption.map
      (fun u => (u.df_current, u.current_step)) = some (s.df_current, n - 1) := by
  rw [run_step_ok T n flag s p.1 p.2 (by simpa using hok)]
  rw [undo_last_step_ok _ s.df_current (by simpa using hn)
    (by show Function.update s.snapshots n (some p.1) (n - 1) = some s.df_current
        rw [Function.update_noteq (by omega : n - 1 ≠ n), hsnap])]
  rfl

/-- C2 witness: undo right after run_step(1) on the freshly loaded raw0
session restores raw0 and pointer 0. -/
theorem C2_undo_after_inorder_run_step_witness :
    (undo_last_step (run_step T0 1 false (load_raw_success raw0 init_state))).toOption.map
      (fun u => (u.df_current, u.current_step)) =
      some ((load_raw_success raw0 init_state).df_current, 0) :=
  C2_undo_after_inorder_run_step T0 (load_raw_success raw0 init_state) 1
    (inspect_missing_values raw0) false (by decide) (by decide) rfl

/-- C4: the claim says Step 3 renames each assigned source column to
its canonical name so that Date appears afterwards; the code instead
builds reverse_map = (canonical, source) and renames in the wrong
direction, so on the non-identity mapping order_date ↦ Date the frame
is returned unchanged, the canonical Date column never appears, and the
date-conversion branch is skipped. -/
theorem C4_mapping_rename_reversed :
    (convert_date_and_derive c4_df c4_mapping).1 = c4_df ∧
    "Date" ∉ (convert_date_and_derive c4_df c4_mapping).1.header := by
  refine ⟨by decide, by decide⟩

/-- C5 counterexample: with a transform family whose step 1 raises and
all later steps succeed, run_all on the mapped session s0 still
executes the later steps — Snapshot[2] gets written and the pointer
reaches 7 — refuting that run_all stops at the first failing step. -/
theorem C5_claim_counterexample :
    TfailOne 1 s0.df_raw = Except.error "boom" ∧
    (run_all_steps TfailOne s0).snapshots 2 = some raw0 ∧
    (run_all_steps TfailOne s0).current_step = 7 := by
  refine ⟨rfl, by decide, by decide⟩

/-- C5 amended: run_all() requires the Column Mapping to be applied
(otherwise the session is unchanged); when mapped it resets the current
Dataset to the raw-loaded Dataset, snapshots it at index 0, and calls
run_step(k) for k = 1..7 unconditionally — a failing step leaves the
session (up to the error marker) unchanged and later steps still run,
with no rollback of earlier steps. -/
theorem C5_run_all_resets_and_runs_all (T : StepFun) (s : PipelineState) :
    (s.mapped = false → run_all_steps T s = s) ∧
    (s.mapped = true →
      run_all_steps T s =
        run_steps_upto T true 7 (make_snapshot s.df_raw 0 { s with df_current := s.df_raw })) ∧
    (∀ (u : PipelineState) (n : ℕ) (e : String) (flag : Bool),
      T n u.df_current = Except.error e →
      run_step T n flag u = { u with step_output := StepOutput.errorO e }) := by
  refine ⟨?_, ?_, ?_⟩
  · intro h
    unfold run_all_steps
    rw [if_neg (by simp [h])]
  · intro h
    unfold run_all_steps
    rw [if_pos h]
    rfl
  · intro u n e flag h
    exact run_step_err T n flag u e h

/-- C5 witness: on the unmapped initial session, run_all changes
nothing. -/
theorem C5_run_all_resets_and_runs_all_witness :
    run_all_steps T0 init_state = init_state :=
  (C5_run_all_resets_and_runs_all T0 init_state).1 rfl

/-- C6: when the dispatched transform of run_step(n) raises, the whole
session — Step Pointer, working Dataset, Snapshot Store and stored
summaries — is left exactly as before the call; only the error marker
for the caller is written. -/
theorem C6_run_step_failure_is_stateless (T : StepFun) (n : ℕ) (flag : Bool)
    (s : PipelineState) (e : String)
    (herr : T n s.df_current = Except.error e) :
    run_step T n flag s = { s with step_output := StepOutput.errorO e } :=
  run_step_err T n flag s e herr

/-- C6 witness: the always-raising family at step 1 on the initial
session only records the error marker. -/
theorem C6_run_step_failure_is_stateless_witness :
    run_step failStep 1 false init_state =
      { init_state with step_output := StepOutput.errorO "boom" } :=
  C6_run_step_failure_is_stateless failStep 1 false init_state "boom" rfl

lemma contains_eq_mem_str (l : List String) (c : String) : l.contains c = decide (c ∈ l) :=
  List.elem_eq_mem c l

set_option maxRecDepth 100000 in
/-- C3 counterexample: the only column of df7 has exactly 7 nulls in
100 rows, so its exact null percentage is exactly 7 and does not
strictly exceed the threshold 7; yet the binary64 computation yields
(7/100)*100 = 7.000000000000001 > 7 and drop_missing_columns removes
the column, refuting the removes-exactly claim at this input. -/
theorem C3_claim_counterexample :
    ¬ (7 : ℚ) < missingPct df7 "a" ∧
    "a" ∈ df7.header ∧
    "a" ∉ (drop_missing_columns df7 7).1.header := by
  refine ⟨?_, by decide, by decide⟩
  have hc : nullCount df7 "a" = 7 := by decide
  have hn : df7.nrows = 100 := by decide
  unfold missingPct
  rw [hc, hn]
  norm_num

/-- C3 amended: for every rectangular frame and threshold t in
[0, 100], drop_missing_columns removes exactly the columns whose
binary64-computed null percentage (count/len)*100 strictly exceeds t —
the comparison the program performs, which can disagree with the exact
percentage at representation boundaries — and leaves the row count
unchanged; t = 100 still drops no column (the frame is returned
intact) and t = 0 still drops exactly the columns containing any
null. -/
theorem C3_drop_missing_columns_float (df : DataFrame) (t : ℕ)
    (ht : t ≤ 100) (hwf : df.Wf) :
    (∀ c, c ∈ (drop_missing_columns df t).1.header ↔
        (c ∈ df.header ∧ exceedsThreshold df c t = false)) ∧
    (drop_missing_columns df t).1.nrows = df.nrows ∧
    (t = 100 → (drop_missing_columns df t).1 = df) ∧
    (t = 0 → ∀ c, c ∈ (drop_missing_columns df t).1.header ↔
        (c ∈ df.header ∧ nullCount df c = 0)) := by
  have hmem : ∀ c, c ∈ (drop_missing_columns df t).1.header ↔
      (c ∈ df.header ∧ exceedsThreshold df c t = false) := by
    intro c
    simp only [drop_missing_columns, dropCols, List.mem_filter, contains_eq_mem_str,
      Bool.not_eq_true', decide_eq_false_iff_not]
    constructor
    · rintro ⟨h1, h2⟩
      refine ⟨h1, ?_⟩
      cases hx : exceedsThreshold df c t with
      | false => rfl
      | true => exact absurd ⟨h1, hx⟩ h2
    · rintro ⟨h1, h2⟩
      exact ⟨h1, fun hand => Bool.false_ne_true (h2.symm.trans hand.2)⟩
  have hrows : (drop_missing_columns df t).1.nrows = df.nrows := by
    simp [drop_missing_columns, dropCols, DataFrame.nrows]
  refine ⟨hmem, hrows, ?_, ?_⟩
  · intro ht100
    subst ht100
    have hL : df.header.filter (fun c => exceedsThreshold df c 100) = [] := by
      rw [List.filter_eq_nil_iff]
      intro c _
      simp only [exceedsThreshold, f64GtNat, decide_eq_true_eq, not_lt]
      exact pctF64_le_100 df c
    show dropCols df (df.header.filter fun c => exceedsThreshold df c 100) = df
    rw [hL]
    unfold dropCols
    cases df with
    | mk h r =>
      simp only [List.contains_nil, Bool.not_false, List.filter_true]
      congr 1
      have hrr : ∀ rr ∈ r, (h.zip rr).map Prod.snd = rr := fun rr hrr =>
        List.map_snd_zip h rr (le_of_eq (hwf rr hrr))
      exact (List.map_congr_left (fun rr h2 => hrr rr h2)).trans (List.map_id r)
  · intro ht0 c
    subst ht0
    rw [hmem c]
    have hiff : exceedsThreshold df c 0 = false ↔ nullCount df c = 0 := by
      constructor
      · intro hf
        by_contra hne
        have hpos := pctF64_pos df c (Nat.pos_of_ne_zero hne)
        simp only [exceedsThreshold, f64GtNat, decide_eq_false_iff_not, not_lt,
          Nat.zero_mul, zero_mul] at hf
        omega
      · intro h0
        simp [exceedsThreshold, pctF64_zero df c h0, f64GtNat, f64Zero]
    constructor
    · rintro ⟨h1, h2⟩
      exact ⟨h1, hiff.mp h2⟩
    · rintro ⟨h1, h2⟩
      exact ⟨h1, hiff.mpr h2⟩

/-- C3 witness: at threshold 50 on the rectangular frame rawA the row
count is preserved. -/
theorem C3_drop_missing_columns_float_witness :
    (drop_missing_columns rawA 50).1.nrows = rawA.nrows :=
  (C3_drop_missing_columns_float rawA 50 (by decide) (by decide)).2.1

/-- C7: confirming the column mapping leaves the session mapping-pending
exactly when some critical canonical name (Date, Amount, Order ID) has
no source column assigned in the draft col_map; in that case the whole
session state is unchanged, otherwise the mapping is frozen. -/
theorem C7_confirm_mapping_missing_critical_iff (cm : List (String × String))
    (s : PipelineState) (hpending : s.mapped = false) :
    ((apply_mapping cm s).mapped = false ↔ ∃ c ∈ CRITICAL_COLS, c ∉ cm.map Prod.snd) ∧
    ((∃ c ∈ CRITICAL_COLS, c ∉ cm.map Prod.snd) → apply_mapping cm s = s) := by
  have hmc : missingCritical cm = [] ↔ ∀ c ∈ CRITICAL_COLS, c ∈ cm.map Prod.snd := by
    unfold missingCritical
    rw [List.filter_eq_nil_iff]
    constructor
    · intro h c hc
      have := h c hc
      simpa [contains_eq_mem_str] using this
    · intro h c hc
      simpa [contains_eq_mem_str] using h c hc
  constructor
  · by_cases h : missingCritical cm = []
    · have hall := hmc.mp h
      unfold apply_mapping
      rw [if_pos h]
      refine iff_of_false (by simp) ?_
      rintro ⟨c, hc, hnc⟩
      exact hnc (hall c hc)
    · unfold apply_mapping
      rw [if_neg h]
      refine iff_of_true hpending ?_
      by_contra hne
      push_neg at hne
      exact h (hmc.mpr hne)
  · rintro ⟨c, hc, hnc⟩
    have h : missingCritical cm ≠ [] := fun h0 => hnc (hmc.mp h0 c hc)
    unfold apply_mapping
    rw [if_neg h]

/-- C7 witness: a draft assigning only Date leaves the initial session
unchanged (mapping rejected, still pending). -/
theorem C7_confirm_mapping_missing_critical_iff_witness :
    apply_mapping cm0 init_state = init_state :=
  (C7_confirm_mapping_missing_critical_iff cm0 init_state rfl).2
    ⟨"Amount", by decide, by decide⟩

/-- C8: Step 1 (inspect_missing_values) returns the Dataset unchanged;
only summary artifacts are produced alongside it. -/
theorem C8_inspect_missing_values_data_noop (df : DataFrame) :
    (inspect_missing_values df).1 = df := rfl

/-- C9: the claim says the AI-response retrieval always returns a plain
string and never raises; but with the module fallback API_KEYS = []
(secrets absent) the except handler of get_gemini_model evaluates
(index + 1) % len(API_KEYS) and raises ZeroDivisionError, which
propagates out of get_gemini_response uncaught — for every prompt,
credential checker and generation outcome. -/
theorem C9_empty_credential_list_raises (ok : ℕ → Bool) (gen : String → Option String)
    (prompt : String) :
    get_gemini_response [] ok gen prompt aiInit = Except.error "ZeroDivisionError" := rfl

/-- C10: run_step(n) is not guarded against skipping ahead: if the
session has never written Snapshot[n-1] (as when n is at least two
above the current Step Pointer and steps were run in order so far) and
the transform of step n succeeds, then undo() immediately afterwards
looks up the never-written key n-1 and raises KeyError instead of
restoring a prior Dataset. -/
theorem C10_undo_after_skipping_raises (T : StepFun) (s : PipelineState) (n : ℕ)
    (p : DataFrame × Summary) (flag : Bool)
    (hskip : s.current_step + 2 ≤ n)
    (hnone : s.snapshots (n - 1) = none)
    (hok : T n s.df_current = Except.ok p) :
    undo_last_step (run_step T n flag s) = Except.error "KeyError" := by
  rw [run_step_ok T n flag s p.1 p.2 (by simpa using hok)]
  exact undo_last_step_err _ (by simpa using (by omega : 1 ≤ n))
    (by show Function.update s.snapshots n (some p.1) (n - 1) = none
        rw [Function.update_noteq (by omega : n - 1 ≠ n), hnone])

/-- C10 witness: on a freshly loaded session (pointer 0), running step 2
directly and undoing raises KeyError. -/
theorem C10_undo_after_skipping_raises_witness :
    undo_last_step (run_step T0 2 false (load_raw_success raw0 init_state)) =
      Except.error "KeyError" :=
  C10_undo_after_skipping_raises T0 (load_raw_success raw0 init_state) 2
    (drop_missing_columns raw0 10) false (by decide) (by decide) rfl
